import Mathlib

/-!
Shallow embedding of the signal-generation and risk-validation core of the
`repalgo` repository (`src/core/risk.py` and `src/core/signals.py`), together
with theorems settling the frozen claims about it.

Python floats are modelled by `ℚ`; Python dict fields read with `.get(k, d)`
are modelled by `Option ℚ` together with `Option.getD`, fields read with
`dict[k]` (which raise `KeyError` when missing) are modelled either as plain
fields of a structure (when the claim only concerns well-formed inputs) or by
`Except String` results.  `datetime.now()` is nondeterministic input, so it is
passed explicitly as a `Now` value.
-/

/-- Wall-clock instant, the relevant projections of Python's
`datetime.now()`: the weekday (`0` = Monday, `< 5` means weekday) and the
time-of-day fields.  `datetime.replace` keeps the same day, so same-day
`datetime` comparison is lexicographic comparison of
`(hour, minute, second, microsecond)`. -/
structure Now where
  weekday : ℕ
  hour : ℕ
  minute : ℕ
  second : ℕ
  microsecond : ℕ
deriving DecidableEq, Inhabited, Repr

/-- Lexicographic order on `(hour, minute)` pairs: Python tuple `<=`. -/
def hmLE (a b : ℕ × ℕ) : Bool :=
  a.1 < b.1 || (a.1 == b.1 && a.2 ≤ b.2)

/-- Lexicographic order on `(hour, minute, second, microsecond)` tuples:
same-day `datetime` comparison. -/
def hmsuLE (a b : ℕ × ℕ × ℕ × ℕ) : Bool :=
  a.1 < b.1 ||
    (a.1 == b.1 && (a.2.1 < b.2.1 ||
      (a.2.1 == b.2.1 && (a.2.2.1 < b.2.2.1 ||
        (a.2.2.1 == b.2.2.1 && a.2.2.2 ≤ b.2.2.2)))))

/-- The time-of-day tuple of a `Now`. -/
def Now.tod (n : Now) : ℕ × ℕ × ℕ × ℕ :=
  (n.hour, n.minute, n.second, n.microsecond)

/-! ## risk.py: data model -/

/-- The signal dict as consumed by `RiskManager`.  `symbol` is accessed with
`signal['symbol']` (required); every other field is accessed with
`signal.get(key, default)`, hence optional. -/
structure RSignal where
  symbol : String
  strike : Option ℚ := none
  price : Option ℚ := none
  quantity : Option ℚ := none
  volume : Option ℚ := none
  open_interest : Option ℚ := none
  bid : Option ℚ := none
  ask : Option ℚ := none
  iv : Option ℚ := none
  lot_size : Option ℚ := none
deriving DecidableEq, Repr

/-- A tracked position, as read by the validation checks
(`p['symbol']` required, `p.get('current_value', 0)` optional). -/
structure RPosition where
  symbol : String
  current_value : Option ℚ := none
deriving DecidableEq, Repr

/-- The mutable state and settings of `RiskManager` (its `__init__`
fields). -/
structure RiskManager where
  max_loss_per_trade : ℚ := 5000
  max_daily_loss : ℚ := 15000
  max_portfolio_risk : ℚ := 50000
  max_positions_per_symbol : ℕ := 3
  max_total_positions : ℕ := 10
  stop_loss_percent : ℚ := 0.10
  take_profit_percent : ℚ := 0.20
  position_size_percent : ℚ := 0.02
  min_volume : ℚ := 1000
  max_bid_ask_spread : ℚ := 0.05
  min_open_interest : ℚ := 5000
  market_open_time : ℕ × ℕ := (9, 15)
  market_close_time : ℕ × ℕ := (15, 30)
  no_trade_before : ℕ × ℕ := (9, 20)
  no_trade_after : ℕ × ℕ := (15, 15)
  enabled : Bool := true
  daily_pnl : ℚ := 0
  current_positions : List RPosition := []
deriving DecidableEq, Repr

/-- `RiskManager()` with all defaults. -/
def initRM : RiskManager := {}

/-! ## risk.py: the seven validation checks -/

/-- `RiskManager.validate_trading_time` (risk.py:62-87): within market hours,
outside the pre/post no-trade buffers, and a weekday.  Python compares
`(hour, minute)` tuples lexicographically. -/
def validate_trading_time (st : RiskManager) (now : Now) : Bool :=
  let current_time := (now.hour, now.minute)
  let within_market_hours :=
    hmLE st.market_open_time current_time && hmLE current_time st.market_close_time
  let not_in_early_restriction := hmLE st.no_trade_before current_time
  let not_in_late_restriction := hmLE current_time st.no_trade_after
  let is_weekday := now.weekday < 5
  within_market_hours && not_in_early_restriction && not_in_late_restriction && is_weekday

/-- `RiskManager.validate_position_limits` (risk.py:89-105). -/
def validate_position_limits (st : RiskManager) (sig : RSignal) : Bool :=
  let symbol_positions := (st.current_positions.filter (fun p => p.symbol == sig.symbol)).length
  if symbol_positions ≥ st.max_positions_per_symbol then false
  else if st.current_positions.length ≥ st.max_total_positions then false
  else true

/-- `RiskManager.validate_risk_limits` (risk.py:107-123). -/
def validate_risk_limits (st : RiskManager) (sig : RSignal) : Bool :=
  let estimated_trade_value := sig.price.getD 0 * sig.quantity.getD 1
  if estimated_trade_value > st.max_loss_per_trade then false
  else
    let current_portfolio_value := (st.current_positions.map (fun p => p.current_value.getD 0)).sum
    if current_portfolio_value + estimated_trade_value > st.max_portfolio_risk then false
    else true

/-- `RiskManager.validate_daily_loss_limit` (risk.py:125-127). -/
def validate_daily_loss_limit (st : RiskManager) : Bool :=
  |st.daily_pnl| < st.max_daily_loss

/-- `RiskManager.validate_liquidity` (risk.py:129-143). -/
def validate_liquidity (st : RiskManager) (sig : RSignal) : Bool :=
  let volume := sig.volume.getD 0
  let open_interest := sig.open_interest.getD 0
  if volume < st.min_volume then false
  else if open_interest < st.min_open_interest then false
  else true

/-- `RiskManager.validate_spread` (risk.py:145-157). -/
def validate_spread (st : RiskManager) (sig : RSignal) : Bool :=
  let bid := sig.bid.getD 0
  let ask := sig.ask.getD 0
  let ltp := sig.price.getD 0
  if ltp == 0 || ask ≤ bid then false
  else
    let spread_percent := (ask - bid) / ltp
    spread_percent ≤ st.max_bid_ask_spread

/-- `RiskManager.validate_volatility` (risk.py:159-171).  The 5%/50% band is
hard-coded in the source; `iv` defaults to `20` (percent) when absent. -/
def validate_volatility (sig : RSignal) : Bool :=
  let iv := sig.iv.getD 20 / 100
  if iv > 0.50 then false
  else if iv < 0.05 then false
  else true

/-! ## risk.py: validate_trade and the validation log -/

/-- The `validation_results` dict built by `RiskManager.validate_trade`
(risk.py:44-52), in its insertion order. -/
def validation_results (st : RiskManager) (now : Now) (sig : RSignal) : List (String × Bool) :=
  [("time_check", validate_trading_time st now),
   ("position_limit_check", validate_position_limits st sig),
   ("risk_limit_check", validate_risk_limits st sig),
   ("liquidity_check", validate_liquidity st sig),
   ("spread_check", validate_spread st sig),
   ("volatility_check", validate_volatility sig),
   ("daily_loss_check", validate_daily_loss_limit st)]

/-- `RiskManager.validate_trade` (risk.py:36-60): early `True` when risk
management is disabled, otherwise the conjunction of all seven checks.  The
source returns this plain boolean to the caller. -/
def validate_trade (st : RiskManager) (now : Now) (sig : RSignal) : Bool :=
  if !st.enabled then true
  else (validation_results st now sig).all (fun c => c.2)

/-- The `failed_checks` list computed inside `RiskManager.log_validation`
(risk.py:319-326): the names of the checks whose result is falsy.  It is only
printed, not returned. -/
def failed_checks (st : RiskManager) (now : Now) (sig : RSignal) : List String :=
  ((validation_results st now sig).filter (fun c => !c.2)).map (fun c => c.1)

/-! ## risk.py: position sizing -/

/-- Python `int(x)`: truncation toward zero. -/
def intTrunc (q : ℚ) : ℤ :=
  if q < 0 then -⌊-q⌋ else ⌊q⌋

/-- `RiskManager.calculate_position_size` (risk.py:173-192).  Note the early
returns: `0` when `available_capital <= 0` and `1` when
`price * lot_size <= 0`. -/
def calculate_position_size (st : RiskManager) (sig : RSignal) (available_capital : ℚ) : ℤ :=
  if available_capital ≤ 0 then 0
  else
    let price_per_lot := sig.price.getD 0 * sig.lot_size.getD 75
    if price_per_lot ≤ 0 then 1
    else
      let max_amount := available_capital * st.position_size_percent
      let risk_based_amount := min max_amount st.max_loss_per_trade
      let lots := intTrunc (risk_based_amount / price_per_lot)
      max 1 lots

/-! ## signals.py: data model -/

/-- Option contract side, the `'CE'` / `'PE'` strings of the source
(CALL / PUT in the data model). -/
inductive OptType where
  | CE
  | PE
deriving DecidableEq, Inhabited, Repr

/-- Signal action strings `'BUY'` / `'SELL'` / `'HOLD'`. -/
inductive TAction where
  | BUY
  | SELL
  | HOLD
deriving DecidableEq, Inhabited, Repr

/-- The seven scored parameter names, the keys of
`AISignalEngine.parameter_weights` (signals.py:26-34) in dict insertion
order. -/
inductive Param where
  | delta
  | oi_change
  | volume
  | momentum
  | iv
  | spread
  | liquidity
deriving DecidableEq, Fintype, Repr

/-- One row of the option-chain dataframe as read by
`analyze_market_parameters` (signals.py:85-98).  `strike`, `type`, `delta`
and `ltp` are accessed with `option[key]` (a missing value raises `KeyError`),
the rest with `option.get(key, default)`. -/
structure RawRow where
  strike : Option ℚ := none
  otype : Option OptType := none
  delta : Option ℚ := none
  ltp : Option ℚ := none
  oi_change : Option ℚ := none
  oi : Option ℚ := none
  volume : Option ℚ := none
  iv : Option ℚ := none
  bid : Option ℚ := none
  ask : Option ℚ := none
deriving DecidableEq, Repr

/-- The `params` dict built for one row (signals.py:90-98): the seven
sub-scores, always all present after a successful scoring pass. -/
structure Scores where
  delta_score : ℚ
  oi_score : ℚ
  volume_score : ℚ
  momentum_score : ℚ
  iv_score : ℚ
  spread_score : ℚ
  liquidity_score : ℚ
deriving DecidableEq, Inhabited, Repr

/-- A `parameters` dict of a learning record, `Option`-valued because
`optimize_weights` guards each access with `if score_key in params`
(signals.py:585).  The fields are the union of the keys ever written
(`learn_from_outcome` stores the scoring pass's `delta_score`, `oi_score`,
`volume_score`, `momentum_score`, `iv_score`, `spread_score`,
`liquidity_score`) and the keys ever read by the optimizer
(`f'{param_name}_score'` for the seven weight names — which for the
`oi_change` weight is `'oi_change_score'`, a key the program itself never
writes; it can only come from the persisted JSON log). -/
structure OptScores where
  delta_score : Option ℚ := none
  oi_score : Option ℚ := none
  oi_change_score : Option ℚ := none
  volume_score : Option ℚ := none
  momentum_score : Option ℚ := none
  iv_score : Option ℚ := none
  spread_score : Option ℚ := none
  liquidity_score : Option ℚ := none
deriving DecidableEq, Repr

/-- The optimizer's `params.get(f'{param_name}_score')` lookup
(signals.py:584-585).  Note: for the `oi_change` weight the key is
`'oi_change_score'` — NOT the `'oi_score'` key that the scoring pass
stores — so records created by `learn_from_outcome` never supply an
`oi_change` sample. -/
def OptScores.get (s : OptScores) : Param → Option ℚ
  | .delta => s.delta_score
  | .oi_change => s.oi_change_score
  | .volume => s.volume_score
  | .momentum => s.momentum_score
  | .iv => s.iv_score
  | .spread => s.spread_score
  | .liquidity => s.liquidity_score

/-- A `Scores` value seen as the `parameters` dict stored by
`learn_from_outcome` (signals.py:432 copies `signal['parameters']`): the
seven `*_score` keys of the scoring pass.  `oi_change_score` is absent. -/
def Scores.toOpt (s : Scores) : OptScores :=
  { delta_score := some s.delta_score
    oi_score := some s.oi_score
    oi_change_score := none
    volume_score := some s.volume_score
    momentum_score := some s.momentum_score
    iv_score := some s.iv_score
    spread_score := some s.spread_score
    liquidity_score := some s.liquidity_score }

/-- The signal dict created by `generate_signals` (signals.py:307-319).
`uuid.uuid4()` is modelled by an injected fresh-id supply. -/
structure Signal where
  id : String
  symbol : String
  strike : ℚ
  otype : OptType
  action : TAction
  confidence : ℚ
  reasoning : String
  timestamp : Now
  price : ℚ
  parameters : Scores
  underlying_price : ℚ
deriving DecidableEq, Inhabited, Repr

/-- The learning record appended by `learn_from_outcome`
(signals.py:430-439). -/
structure LearningRecord where
  signal_id : String
  parameters : OptScores
  predicted_confidence : ℚ
  actual_outcome : String
  pnl : ℚ
  timestamp : Now
  symbol : String
  action : TAction
deriving DecidableEq, Repr

/-- The claim-relevant mutable state of `AISignalEngine` (signals.py:13-38).
The sklearn model objects, which no claim concerns, are not modelled. -/
structure AISignalEngine where
  confidence_threshold : ℚ := 0.6
  parameter_weights : Param → ℚ := fun p =>
    match p with
    | .delta => 0.25
    | .oi_change => 0.20
    | .volume => 0.15
    | .momentum => 0.15
    | .iv => 0.10
    | .spread => 0.10
    | .liquidity => 0.05
  signals_history : List Signal := []
  learning_data : List LearningRecord := []

/-! ## signals.py: the seven parameter analyzers -/

/-- `AISignalEngine.analyze_delta` (signals.py:116-138). -/
def analyze_delta (delta : ℚ) (option_type : OptType) : ℚ :=
  match option_type with
  | .CE =>
    if delta > 0.7 then 0.9
    else if delta > 0.5 then 0.7
    else if delta > 0.3 then 0.5
    else 0.2
  | .PE =>
    let abs_delta := |delta|
    if abs_delta > 0.7 then 0.9
    else if abs_delta > 0.5 then 0.7
    else if abs_delta > 0.3 then 0.5
    else 0.2

/-- `AISignalEngine.analyze_oi_change` (signals.py:140-154). -/
def analyze_oi_change (oi_change total_oi : ℚ) : ℚ :=
  if total_oi = 0 then 0.3
  else
    let oi_change_percent := oi_change / total_oi * 100
    if |oi_change_percent| > 20 then 0.9
    else if |oi_change_percent| > 10 then 0.7
    else if |oi_change_percent| > 5 then 0.5
    else 0.3

/-- `AISignalEngine.analyze_volume` (signals.py:156-170). -/
def analyze_volume (volume oi : ℚ) : ℚ :=
  if oi = 0 then 0.3
  else
    let volumeOverOi := volume / oi
    if volumeOverOi > 0.5 then 0.9
    else if volumeOverOi > 0.3 then 0.7
    else if volumeOverOi > 0.1 then 0.5
    else 0.3

/-- `AISignalEngine.analyze_momentum` (signals.py:172-195).  The `ltp`
argument is present in the source signature but unused. -/
def analyze_momentum (_ltp underlying_price strike : ℚ) (option_type : OptType) : ℚ :=
  match option_type with
  | .CE =>
    let distance_to_strike := (underlying_price - strike) / underlying_price
    if distance_to_strike > 0.02 then 0.8
    else if distance_to_strike > 0 then 0.6
    else if distance_to_strike > -0.02 then 0.4
    else 0.2
  | .PE =>
    let distance_to_strike := (strike - underlying_price) / underlying_price
    if distance_to_strike > 0.02 then 0.8
    else if distance_to_strike > 0 then 0.6
    else if distance_to_strike > -0.02 then 0.4
    else 0.2

/-- `AISignalEngine.analyze_iv` (signals.py:197-206). -/
def analyze_iv (iv : ℚ) : ℚ :=
  if iv < 15 then 0.3
  else if iv < 25 then 0.7
  else if iv < 35 then 0.5
  else 0.2

/-- `AISignalEngine.analyze_spread` (signals.py:208-222). -/
def analyze_spread (bid ask ltp : ℚ) : ℚ :=
  if ask ≤ bid ∨ ltp = 0 then 0.1
  else
    let spread_percent := (ask - bid) / ltp * 100
    if spread_percent < 2 then 0.9
    else if spread_percent < 5 then 0.7
    else if spread_percent < 10 then 0.5
    else 0.2

/-- `AISignalEngine.analyze_liquidity` (signals.py:224-235). -/
def analyze_liquidity (bid ask : ℚ) : ℚ :=
  if bid = 0 ∧ ask = 0 then 0.1
  else if bid > 0 ∧ ask > 0 then 0.8
  else if bid > 0 ∨ ask > 0 then 0.5
  else 0.2

/-! ## signals.py: per-row scoring and chain analysis -/

/-- `AISignalEngine.generate_reasoning` (signals.py:237-277). -/
def generate_reasoning (params : Scores) : String :=
  let reasons : List String :=
    (if params.delta_score > 0.7 then ["Strong Delta indicating good directional bias"]
     else if params.delta_score < 0.3 then ["Weak Delta suggesting limited directional exposure"]
     else []) ++
    (if params.oi_score > 0.7 then ["Significant OI buildup indicating institutional interest"]
     else if params.oi_score < 0.3 then ["Limited OI activity"]
     else []) ++
    (if params.volume_score > 0.7 then ["High volume confirming market participation"]
     else if params.volume_score < 0.3 then ["Low volume suggesting limited interest"]
     else []) ++
    (if params.momentum_score > 0.7 then ["Favorable price momentum"]
     else if params.momentum_score < 0.3 then ["Unfavorable price momentum"]
     else []) ++
    (if params.iv_score > 0.7 then ["Optimal IV levels for entry"]
     else if params.iv_score < 0.3 then ["Suboptimal IV levels"]
     else []) ++
    (if params.spread_score > 0.7 then ["Tight bid-ask spread ensuring good execution"]
     else if params.spread_score < 0.3 then ["Wide spread may impact execution"]
     else [])
  if reasons.isEmpty then "Mixed signals across parameters"
  else String.intercalate "; " reasons

/-- The analysis entry stored per option row
(`analysis[f"type_strike"]`, signals.py:107-112). -/
structure RowAnalysis where
  strike : ℚ
  otype : OptType
  params : Scores
  confidence : ℚ
  reasoning : String
  ltp : ℚ
deriving DecidableEq, Repr

/-- A required dataframe field access `option[key]`: `KeyError` when
missing. -/
def reqField {α : Type} (o : Option α) (key : String) : Except String α :=
  match o with
  | some a => Except.ok a
  | none => Except.error ("KeyError: " ++ key)

/-- `self.parameter_weights[k]` as a guarded dict lookup: `some` exactly on
the seven weight keys of signals.py:26-34 (this key set is preserved by
`optimize_weights`, whose `new_weights` is built over the same names).
Note there is no `"oi"` key — the key is `"oi_change"`. -/
def weightLookup (w : Param → ℚ) (k : String) : Option ℚ :=
  if k = "delta" then some (w .delta)
  else if k = "oi_change" then some (w .oi_change)
  else if k = "volume" then some (w .volume)
  else if k = "momentum" then some (w .momentum)
  else if k = "iv" then some (w .iv)
  else if k = "spread" then some (w .spread)
  else if k = "liquidity" then some (w .liquidity)
  else none

/-- The weighted confidence sum of signals.py:100-102: iterate the `params`
dict keys, strip the `'_score'` suffix, and include `score * weight` only
when the stripped key is in `parameter_weights`.  The first components
below are the keys already stripped: `'oi_score'` strips to `'oi'`, which
is NOT a `parameter_weights` key (the weight key is `'oi_change'`), so the
oi term is dropped from every confidence the program computes. -/
def confidence_sum (w : Param → ℚ) (params : Scores) : ℚ :=
  (([("delta", params.delta_score), ("oi", params.oi_score),
      ("volume", params.volume_score), ("momentum", params.momentum_score),
      ("iv", params.iv_score), ("spread", params.spread_score),
      ("liquidity", params.liquidity_score)] : List (String × ℚ)).filterMap
    (fun kv => (weightLookup w kv.1).map (fun wt => kv.2 * wt))).sum

/-- The body of the per-row loop of `analyze_market_parameters`
(signals.py:85-112): required-field reads, the seven sub-scores, the
weighted confidence sum, and the reasoning text. -/
def scoreRow (w : Param → ℚ) (underlying_price : ℚ) (row : RawRow) :
    Except String RowAnalysis := do
  let strike ← reqField row.strike "strike"
  let option_type ← reqField row.otype "type"
  let delta ← reqField row.delta "delta"
  let ltp ← reqField row.ltp "ltp"
  let params : Scores :=
    { delta_score := analyze_delta delta option_type
      oi_score := analyze_oi_change (row.oi_change.getD 0) (row.oi.getD 0)
      volume_score := analyze_volume (row.volume.getD 0) (row.oi.getD 0)
      momentum_score := analyze_momentum ltp underlying_price strike option_type
      iv_score := analyze_iv (row.iv.getD 20)
      spread_score := analyze_spread (row.bid.getD 0) (row.ask.getD 0) ltp
      liquidity_score := analyze_liquidity (row.bid.getD 0) (row.ask.getD 0) }
  let confidence := confidence_sum w params
  Except.ok
    { strike := strike, otype := option_type, params := params,
      confidence := confidence, reasoning := generate_reasoning params, ltp := ltp }

/-- Sequential fallible mapping over a list, stopping at the first error:
the per-row loop of `analyze_market_parameters` with an uncaught exception.
(Structural recursion, unlike `List.mapM`, so proofs can unfold it.) -/
def mapMExcept {ε α β : Type} (f : α → Except ε β) : List α → Except ε (List β)
  | [] => Except.ok []
  | a :: l => do
    let b ← f a
    let bs ← mapMExcept f l
    Except.ok (b :: bs)

/-- Insertion into a Python dict modelled as an association list: an existing
key keeps its position and gets the new value, a new key is appended. -/
def dictInsert {κ α : Type} [DecidableEq κ] (k : κ) (v : α) :
    List (κ × α) → List (κ × α)
  | [] => [(k, v)]
  | (k', v') :: rest =>
      if k' = k then (k', v) :: rest else (k', v') :: dictInsert k v rest

/-- `AISignalEngine.analyze_market_parameters` (signals.py:75-114): scores
every row, keyed by `(type, strike)` (the f-string key `f"type_strike"` is
injective on those pairs).  A `KeyError` from any row propagates and aborts
the whole analysis, exactly as the uncaught exception does in the source. -/
def analyze_market_parameters (w : Param → ℚ) (option_data : List RawRow)
    (underlying_price : ℚ) : Except String (List ((OptType × ℚ) × RowAnalysis)) := do
  let analyses ← mapMExcept (scoreRow w underlying_price) option_data
  Except.ok (analyses.foldl (fun acc a => dictInsert (a.otype, a.strike) a acc) [])

/-! ## signals.py: signal generation -/

/-- `AISignalEngine.is_trading_time` (signals.py:363-371): between the
`replace`-built 09:15:00.000000 and 15:30:00.000000 datetimes of the same
day, on a weekday. -/
def is_trading_time (now : Now) : Bool :=
  hmsuLE (9, 15, 0, 0) now.tod && hmsuLE now.tod (15, 30, 0, 0) && now.weekday < 5

/-- `AISignalEngine.determine_action` (signals.py:332-361).  The
`option_type` argument is present in the source signature but unused. -/
def determine_action (parameters : Scores) (_option_type : OptType) (confidence : ℚ) : TAction :=
  let strong_buy_conditions :=
    parameters.delta_score > 0.7 ∧ parameters.oi_score > 0.6 ∧
    parameters.volume_score > 0.5 ∧ parameters.momentum_score > 0.6
  let moderate_buy_conditions :=
    parameters.delta_score > 0.5 ∧ parameters.oi_score > 0.4 ∧
    (parameters.volume_score > 0.4 ∨ parameters.momentum_score > 0.5)
  let exit_conditions :=
    parameters.delta_score < 0.3 ∨ parameters.momentum_score < 0.3 ∨
    parameters.iv_score < 0.2
  if strong_buy_conditions ∨ (moderate_buy_conditions ∧ confidence > 0.7) then .BUY
  else if exit_conditions ∧ confidence > 0.5 then .SELL
  else .HOLD

/-- The body of the emission loop of `generate_signals` (signals.py:296-321):
one analysis entry yields a signal exactly when its confidence reaches the
threshold and the decided action is not HOLD. -/
def emitOne (eng : AISignalEngine) (now : Now) (fresh : OptType → ℚ → String)
    (symbol : String) (underlying_price : ℚ) :
    (OptType × ℚ) × RowAnalysis → Option Signal := fun kd =>
  let data := kd.2
  if data.confidence ≥ eng.confidence_threshold then
    let action := determine_action data.params data.otype data.confidence
    if action ≠ TAction.HOLD then
      some { id := fresh data.otype data.strike
             symbol := symbol
             strike := data.strike
             otype := data.otype
             action := action
             confidence := data.confidence * 100
             reasoning := data.reasoning
             timestamp := now
             price := data.ltp
             parameters := data.params
             underlying_price := underlying_price }
    else none
  else none

/-- Stable insertion for descending sort by confidence. -/
def insertDesc (s : Signal) : List Signal → List Signal
  | [] => [s]
  | t :: ts => if s.confidence > t.confidence then s :: t :: ts else t :: insertDesc s ts

/-- `sorted(signals, key=lambda x: x['confidence'], reverse=True)`
(signals.py:330): stable descending sort. -/
def sortDesc (l : List Signal) : List Signal :=
  l.foldl (fun acc s => insertDesc s acc) []

/-- `AISignalEngine.generate_signals` (signals.py:279-330).  An empty chain
returns `[]` at once; the chain is analyzed *before* the trading-time gate;
outside trading hours the still-empty signal list is returned.  The
`signals_history` extension (signals.py:324-328) mutates engine state only
and does not affect the returned list, which is what this embedding
captures.  `uuid.uuid4()` is modelled by the injected `fresh` supply. -/
def generate_signals (eng : AISignalEngine) (now : Now) (fresh : OptType → ℚ → String)
    (symbol : String) (option_chain : List RawRow) (underlying_price : ℚ) :
    Except String (List Signal) :=
  if option_chain.isEmpty then Except.ok []
  else
    (analyze_market_parameters eng.parameter_weights option_chain underlying_price).map
      fun analysis =>
        if is_trading_time now then
          sortDesc (analysis.filterMap (emitOne eng now fresh symbol underlying_price))
        else []

/-! ## signals.py: weight optimization -/

/-- Python slice `l[-n:]`: the last `n` elements. -/
def lastN {α : Type} (n : ℕ) (l : List α) : List α :=
  l.drop (l.length - n)

/-- The `param_performance[param_name]` list built by `optimize_weights`
(signals.py:579-589): the `(score, pnl)` pairs of the records whose
`parameters` dict contains this parameter's score key. -/
def paramData (recs : List LearningRecord) (p : Param) : List (ℚ × ℚ) :=
  recs.filterMap (fun r => (r.parameters.get p).map (fun s => (s, r.pnl)))

/-- The `high_score_pnl` list of `optimize_weights` (signals.py:599): the
realized P&L of the samples whose sub-score exceeds 0.6. -/
def highPnl (recs : List LearningRecord) (p : Param) : List ℚ :=
  ((paramData recs p).filter (fun d => d.1 > 0.6)).map (fun d => d.2)

/-- The per-parameter weight computed by the first loop of `optimize_weights`
(signals.py:594-607): parameters with no samples, or with no sample scoring
above 0.6, keep their previous weight; otherwise
`max(0.05, min(0.35, mean_pnl / 1000 + 0.15))` with `mean_pnl` the mean
realized P&L of the high-score samples (`np.mean`). -/
def rawWeight (w : Param → ℚ) (recs : List LearningRecord) (p : Param) : ℚ :=
  if (paramData recs p).isEmpty then w p
  else if (highPnl recs p).isEmpty then w p
  else
    let avg_pnl := (highPnl recs p).sum / ((highPnl recs p).length : ℚ)
    max 0.05 (min 0.35 (avg_pnl / 1000 + 0.15))

/-- One parameter's contribution to `total_weight` (signals.py:591-608).  A
parameter with no samples hits the `continue` (signals.py:595-597), so its
retained weight is NOT added to the total. -/
def contribWeight (w : Param → ℚ) (recs : List LearningRecord) (p : Param) : ℚ :=
  if (paramData recs p).isEmpty then 0 else rawWeight w recs p

/-- The accumulated `total_weight` over the seven parameters. -/
def totalWeight (w : Param → ℚ) (recs : List LearningRecord) : ℚ :=
  contribWeight w recs .delta + contribWeight w recs .oi_change +
  contribWeight w recs .volume + contribWeight w recs .momentum +
  contribWeight w recs .iv + contribWeight w recs .spread +
  contribWeight w recs .liquidity

/-- `AISignalEngine.optimize_weights` (signals.py:563-616).  Below 50 records
nothing happens.  The final loop divides EVERY entry of `new_weights`
(including the `continue`-retained ones) by `total_weight`; when
`total_weight` is zero this is Python's `ZeroDivisionError`, swallowed by the
surrounding `except`, leaving the weights unchanged. -/
def optimize_weights (w : Param → ℚ) (learning_data : List LearningRecord) : Param → ℚ :=
  if learning_data.length < 50 then w
  else
    let recs := lastN 100 learning_data
    if totalWeight w recs = 0 then w
    else fun p => rawWeight w recs p / totalWeight w recs

/-! ## signals.py: learning from outcomes -/

/-- `AISignalEngine.learn_from_outcome` (signals.py:425-447): looks the
signal up by id in the history (`next(...)`, first match; silent no-op when
absent), appends a learning record built from it, and re-optimizes the
weights every 30 accumulated records.  (`train_model` touches only the
unmodelled sklearn objects; `save_learning_data` is I/O.) -/
def learn_from_outcome (eng : AISignalEngine) (now : Now) (signal_id : String)
    (actual_outcome : String) (pnl : ℚ) : AISignalEngine :=
  match eng.signals_history.find? (fun s => s.id == signal_id) with
  | none => eng
  | some signal =>
    let learning_record : LearningRecord :=
      { signal_id := signal_id
        parameters := signal.parameters.toOpt
        predicted_confidence := signal.confidence
        actual_outcome := actual_outcome
        pnl := pnl
        timestamp := now
        symbol := signal.symbol
        action := signal.action }
    let ld := eng.learning_data ++ [learning_record]
    if ld.length % 30 == 0 then
      { eng with learning_data := ld,
                 parameter_weights := optimize_weights eng.parameter_weights ld }
    else
      { eng with learning_data := ld }

/-! ## Auxiliary definitions used by the theorems -/

/-- A well-formed option-chain row: the four fields that
`analyze_market_parameters` reads with `option[key]` are present.  This is
exactly what the spec's `OptionQuote` data model guarantees. -/
def RawRow.wf (r : RawRow) : Prop :=
  r.strike.isSome ∧ r.otype.isSome ∧ r.delta.isSome ∧ r.ltp.isSome

instance (r : RawRow) : Decidable r.wf := by
  unfold RawRow.wf
  infer_instance

/-- The sum of the seven parameter weights. -/
def sumW (w : Param → ℚ) : ℚ :=
  w .delta + w .oi_change + w .volume + w .momentum + w .iv + w .spread + w .liquidity

/-! ## Concrete inputs used by witnesses and counterexamples -/

/-- `AISignalEngine()` with all defaults. -/
def eng0 : AISignalEngine := {}

/-- The initial parameter weights (signals.py:26-34). -/
def w0 : Param → ℚ := eng0.parameter_weights

/-- A Monday at 10:00:00.000000: inside every trading-time window. -/
def now0 : Now := { weekday := 0, hour := 10, minute := 0, second := 0, microsecond := 0 }

/-- A Monday at 03:00: outside the trading-time window. -/
def now3am : Now := { weekday := 0, hour := 3, minute := 0, second := 0, microsecond := 0 }

/-- A fresh-id supply standing in for `uuid.uuid4()`. -/
def fresh0 : OptType → ℚ → String := fun _ _ => "sig-1"

/-- A fully populated, strongly scoring call-option row. -/
def row0 : RawRow :=
  { strike := some 100, otype := some OptType.CE, delta := some 0.8, ltp := some 10,
    oi_change := some 3000, oi := some 10000, volume := some 6000, iv := some 20,
    bid := some 10, ask := some (101/10) }

/-- A second well-formed row at another strike. -/
def rowB : RawRow :=
  { strike := some 110, otype := some OptType.CE, delta := some 0.2, ltp := some 3,
    oi_change := some 100, oi := some 8000, volume := some 400, iv := some 22,
    bid := some 3, ask := some (31/10) }

/-- `row0` with the required `delta` field missing: a malformed row. -/
def badRow : RawRow := { row0 with delta := none }

/-- The signal list produced by `generate_signals` on `[row0]` during
trading hours. -/
def genRes0 : List Signal :=
  match generate_signals eng0 now0 fresh0 "NIFTY" [row0] 105 with
  | Except.ok l => l
  | Except.error _ => []

/-- The top emitted signal of that run. -/
def emitted0 : Signal := genRes0.headI

/-- The scenario signal of the position-sizing claim:
price 50, lot size 75. -/
def sigS : RSignal := { symbol := "NIFTY", price := some 50, lot_size := some 75 }

/-- A signal that fails exactly the liquidity check under default settings
(volume 500 < 1000; everything else in range). -/
def sigA : RSignal :=
  { symbol := "NIFTY", price := some 10, quantity := some 1, volume := some 500,
    open_interest := some 6000, bid := some 10, ask := some (101/10), iv := some 20 }

/-- A signal that fails exactly the volatility check under default settings
(iv 60% > 50%; everything else in range). -/
def sigB : RSignal :=
  { symbol := "NIFTY", price := some 10, quantity := some 1, volume := some 2000,
    open_interest := some 6000, bid := some 10, ask := some (101/10), iv := some 60 }

/-- A signal that passes all seven checks under default settings at `now0`. -/
def sigOK : RSignal :=
  { symbol := "NIFTY", price := some 10, quantity := some 1, volume := some 2000,
    open_interest := some 6000, bid := some 10, ask := some (101/10), iv := some 20 }

/-- A signal with every market-data field missing. -/
def sigNone : RSignal := { symbol := "NIFTY" }

/-- The sub-scores of `row0`. -/
def scores0 : Scores :=
  { delta_score := 0.9, oi_score := 0.9, volume_score := 0.9, momentum_score := 0.8,
    iv_score := 0.7, spread_score := 0.9, liquidity_score := 0.8 }

/-- A stored signal with id `"s1"`, used for the outcome-recording claim. -/
def sig1 : Signal :=
  { id := "s1", symbol := "NIFTY", strike := 100, otype := OptType.CE,
    action := TAction.BUY, confidence := 86, reasoning := "", timestamp := now0,
    price := 10, parameters := scores0, underlying_price := 105 }

/-- An engine whose history holds `sig1` and whose learning log is empty. -/
def engC3 : AISignalEngine := { signals_history := [sig1] }

/-- The engine after recording the outcome of `"s1"` once. -/
def engC3a : AISignalEngine := learn_from_outcome engC3 now0 "s1" "profit" 500

/-- The engine after recording the identical outcome of `"s1"` a second
time. -/
def engC3b : AISignalEngine := learn_from_outcome engC3a now0 "s1" "profit" 500

/-- A standard learning record, shaped exactly as `learn_from_outcome`
writes it: the seven `*_score` keys of the scoring pass, hence NO
`oi_change_score` key. -/
def fullRec : LearningRecord :=
  { signal_id := "s1", parameters := scores0.toOpt, predicted_confidence := 68,
    actual_outcome := "profit", pnl := 1000, timestamp := now0, symbol := "NIFTY",
    action := TAction.BUY }

/-- 50 accumulated standard records: the optimizer finds samples for six
parameters, but none for `oi_change` (its `'oi_change_score'` lookup key is
never written by the program). -/
def ldFull : List LearningRecord := List.replicate 50 fullRec

/-- A learning record as it could come from the persisted learning-data
JSON, carrying an `'oi_change_score'` key in addition to the standard ones —
the only way the optimizer's `oi_change` lookup can find a sample. -/
def oiChangeRec : LearningRecord :=
  { signal_id := "j1",
    parameters :=
      { delta_score := some 0.9, oi_score := some 0.9, oi_change_score := some 0.9,
        volume_score := some 0.9, momentum_score := some 0.8, iv_score := some 0.7,
        spread_score := some 0.9, liquidity_score := some 0.8 },
    predicted_confidence := 0, actual_outcome := "", pnl := 1000,
    timestamp := now0, symbol := "", action := TAction.BUY }

/-- 50 accumulated JSON-style records: every one of the seven parameters,
including `oi_change`, has samples. -/
def ldOi : List LearningRecord := List.replicate 50 oiChangeRec

/-- A disabled risk manager in a state that would fail several checks. -/
def stDisabled : RiskManager := { enabled := false, daily_pnl := 999999 }

/-- Whether an `Except` computation succeeded. -/
def exceptOk {ε α : Type} : Except ε α → Bool
  | Except.ok _ => true
  | Except.error _ => false

/-- The analysis entry that scoring `row0` at underlying price 105
produces.  Confidence is 0.68: the oi term (0.9 x 0.20) is dropped by the
`'oi'` key miss in the confidence sum. -/
def rowAnalysis0 : RowAnalysis :=
  { strike := 100, otype := OptType.CE, params := scores0, confidence := 0.68,
    reasoning := generate_reasoning scores0, ltp := 10 }

/-- The signal that `generate_signals` emits for `row0` at underlying price
105 during trading hours. -/
def sig0 : Signal :=
  { id := "sig-1", symbol := "NIFTY", strike := 100, otype := OptType.CE,
    action := TAction.BUY, confidence := 68, reasoning := generate_reasoning scores0,
    timestamp := now0, price := 10, parameters := scores0, underlying_price := 105 }

/-- The shape of the `validation_results` dict with the seven check outcomes
abstracted, used to reason about `validate_trade` uniformly. -/
def checksList (b1 b2 b3 b4 b5 b6 b7 : Bool) : List (String × Bool) :=
  [("time_check", b1), ("position_limit_check", b2), ("risk_limit_check", b3),
   ("liquidity_check", b4), ("spread_check", b5), ("volatility_check", b6),
   ("daily_loss_check", b7)]

/-! # Theorems -/

/-- Closed form of the confidence sum: the stripped key `'oi'` misses the
`parameter_weights` dict (whose key is `'oi_change'`), so only six of the
seven sub-scores contribute — the oi term is dropped and the `oi_change`
weight multiplies nothing. -/
theorem confidence_sum_eq (w : Param → ℚ) (params : Scores) :
    confidence_sum w params =
      params.delta_score * w .delta + params.volume_score * w .volume +
      params.momentum_score * w .momentum + params.iv_score * w .iv +
      params.spread_score * w .spread + params.liquidity_score * w .liquidity := by
  have h1 : weightLookup w "delta" = some (w .delta) := rfl
  have h2 : weightLookup w "oi" = none := rfl
  have h3 : weightLookup w "volume" = some (w .volume) := rfl
  have h4 : weightLookup w "momentum" = some (w .momentum) := rfl
  have h5 : weightLookup w "iv" = some (w .iv) := rfl
  have h6 : weightLookup w "spread" = some (w .spread) := rfl
  have h7 : weightLookup w "liquidity" = some (w .liquidity) := rfl
  simp [confidence_sum, List.filterMap_cons, h1, h2, h3, h4, h5, h6, h7]
  ring

/-- For every outcome of the seven checks: `all` over the results list is
their conjunction, and each check's name appears among the failed names
exactly when that check failed. -/
theorem checksList_spec (b1 b2 b3 b4 b5 b6 b7 : Bool) :
    ((checksList b1 b2 b3 b4 b5 b6 b7).all (fun c => c.2) = true ↔
      (b1 = true ∧ b2 = true ∧ b3 = true ∧ b4 = true ∧ b5 = true ∧ b6 = true ∧
       b7 = true)) ∧
    (("time_check" ∈ ((checksList b1 b2 b3 b4 b5 b6 b7).filter
        (fun c => !c.2)).map (fun c => c.1) ↔ b1 = false) ∧
     ("position_limit_check" ∈ ((checksList b1 b2 b3 b4 b5 b6 b7).filter
        (fun c => !c.2)).map (fun c => c.1) ↔ b2 = false) ∧
     ("risk_limit_check" ∈ ((checksList b1 b2 b3 b4 b5 b6 b7).filter
        (fun c => !c.2)).map (fun c => c.1) ↔ b3 = false) ∧
     ("liquidity_check" ∈ ((checksList b1 b2 b3 b4 b5 b6 b7).filter
        (fun c => !c.2)).map (fun c => c.1) ↔ b4 = false) ∧
     ("spread_check" ∈ ((checksList b1 b2 b3 b4 b5 b6 b7).filter
        (fun c => !c.2)).map (fun c => c.1) ↔ b5 = false) ∧
     ("volatility_check" ∈ ((checksList b1 b2 b3 b4 b5 b6 b7).filter
        (fun c => !c.2)).map (fun c => c.1) ↔ b6 = false) ∧
     ("daily_loss_check" ∈ ((checksList b1 b2 b3 b4 b5 b6 b7).filter
        (fun c => !c.2)).map (fun c => c.1) ↔ b7 = false)) := by
  cases b1 <;> cases b2 <;> cases b3 <;> cases b4 <;> cases b5 <;> cases b6 <;>
    cases b7 <;> decide

/-! ## C7: parameter sub-scores lie in [0,1]; zero oi and volume give the
0.3 no-signal defaults -/

/-- C7 (confirmed): for every valid input (any rational fields, positive
underlying price), each of the seven sub-scores produced by the parameter
analyzers lies in `[0, 1]`; moreover `total_oi = 0` forces
`oi_score = 0.3` and `oi = 0` forces `volume_score = 0.3` (no-signal
defaults), not an error. -/
theorem parameter_scores_in_unit_interval
    (delta oi_chg oi volume iv bid ask ltp strike underlying_price : ℚ) (ot : OptType)
    (h_up : 0 < underlying_price) :
    (analyze_delta delta ot ∈ Set.Icc (0:ℚ) 1 ∧
     analyze_oi_change oi_chg oi ∈ Set.Icc (0:ℚ) 1 ∧
     analyze_volume volume oi ∈ Set.Icc (0:ℚ) 1 ∧
     analyze_momentum ltp underlying_price strike ot ∈ Set.Icc (0:ℚ) 1 ∧
     analyze_iv iv ∈ Set.Icc (0:ℚ) 1 ∧
     analyze_spread bid ask ltp ∈ Set.Icc (0:ℚ) 1 ∧
     analyze_liquidity bid ask ∈ Set.Icc (0:ℚ) 1) ∧
    analyze_oi_change oi_chg 0 = 0.3 ∧ analyze_volume volume 0 = 0.3 := by
  refine ⟨⟨?_, ?_, ?_, ?_, ?_, ?_, ?_⟩, ?_, ?_⟩
  · cases ot <;> (simp only [analyze_delta, Set.mem_Icc]; split_ifs <;> norm_num)
  · simp only [analyze_oi_change, Set.mem_Icc]
    split_ifs <;> norm_num
  · simp only [analyze_volume, Set.mem_Icc]
    split_ifs <;> norm_num
  · cases ot <;> (simp only [analyze_momentum, Set.mem_Icc]; split_ifs <;> norm_num)
  · simp only [analyze_iv, Set.mem_Icc]
    split_ifs <;> norm_num
  · simp only [analyze_spread, Set.mem_Icc]
    split_ifs <;> norm_num
  · simp only [analyze_liquidity, Set.mem_Icc]
    split_ifs <;> norm_num
  · simp [analyze_oi_change]
  · simp [analyze_volume]

/-- Witness for C7 at the concrete inputs of `row0` (underlying 105). -/
theorem parameter_scores_in_unit_interval_witness :
    (analyze_delta 0.8 OptType.CE ∈ Set.Icc (0:ℚ) 1 ∧
     analyze_oi_change 3000 10000 ∈ Set.Icc (0:ℚ) 1 ∧
     analyze_volume 6000 10000 ∈ Set.Icc (0:ℚ) 1 ∧
     analyze_momentum 10 105 100 OptType.CE ∈ Set.Icc (0:ℚ) 1 ∧
     analyze_iv 20 ∈ Set.Icc (0:ℚ) 1 ∧
     analyze_spread 10 (101/10) 10 ∈ Set.Icc (0:ℚ) 1 ∧
     analyze_liquidity 10 (101/10) ∈ Set.Icc (0:ℚ) 1) ∧
    analyze_oi_change 3000 0 = 0.3 ∧ analyze_volume 6000 0 = 0.3 :=
  parameter_scores_in_unit_interval 0.8 3000 10000 6000 20 10 (101/10) 10 100 105
    OptType.CE (by norm_num)

/-! ## C9: disabled risk management bypasses every check -/

/-- C9 (confirmed): with the gate's `enabled` flag `False`, `validate_trade`
returns `True` for every signal, every state and every time — none of the
seven checks is consulted. -/
theorem validate_trade_disabled_bypasses (st : RiskManager) (now : Now) (sig : RSignal)
    (h : st.enabled = false) : validate_trade st now sig = true := by
  simp [validate_trade, h]

/-- Witness for C9: a disabled manager whose daily-loss check would fail
still approves a signal that has no market data at all. -/
theorem validate_trade_disabled_bypasses_witness :
    validate_trade stDisabled now3am sigNone = true ∧
    validate_daily_loss_limit stDisabled = false :=
  ⟨validate_trade_disabled_bypasses stDisabled now3am sigNone rfl, by decide⟩

/-! ## C10: missing market-data fields default; missing iv passes
volatility -/

/-- C10 (confirmed): the checks never raise on missing market-data fields.
A signal missing volume, open interest, bid, ask and price reads them as 0,
so the liquidity and spread checks fail; but a missing implied-volatility
field defaults to 20 (percent), so every signal with no `iv` field passes
the volatility check. -/
theorem missing_market_fields_use_defaults (st : RiskManager) (sig sigOi sigIv : RSignal)
    (hmv : 0 < st.min_volume) (hmo : 0 < st.min_open_interest)
    (hvol : sig.volume = none) (hbid : sig.bid = none)
    (hask : sig.ask = none) (hprice : sig.price = none)
    (hvol2 : ∃ v, sigOi.volume = some v ∧ st.min_volume ≤ v)
    (hoi2 : sigOi.open_interest = none)
    (hiv : sigIv.iv = none) :
    validate_liquidity st sig = false ∧ validate_liquidity st sigOi = false ∧
    validate_spread st sig = false ∧ validate_volatility sigIv = true := by
  refine ⟨?_, ?_, ?_, ?_⟩
  · simp [validate_liquidity, hvol, hmv]
  · obtain ⟨v, hv, hvge⟩ := hvol2
    simp [validate_liquidity, hv, hoi2, not_lt.mpr hvge, hmo]
  · simp [validate_spread, hprice, hbid, hask]
  · simp only [validate_volatility, hiv, Option.getD_none]
    norm_num

/-- Witness for C10: a signal with no market-data fields at all, and one
missing only its open interest. -/
theorem missing_market_fields_use_defaults_witness :
    validate_liquidity initRM sigNone = false ∧
    validate_liquidity initRM { symbol := "NIFTY", volume := some 2000 } = false ∧
    validate_spread initRM sigNone = false ∧
    validate_volatility sigNone = true :=
  missing_market_fields_use_defaults initRM sigNone
    { symbol := "NIFTY", volume := some 2000 } sigNone (by decide) (by decide)
    rfl rfl rfl rfl ⟨2000, rfl, by decide⟩ rfl rfl

/-! ## C8: position sizing -/

/-- C8 (amended): for positive available capital and positive
`price * lot_size`, `calculate_position_size` under the default settings
returns `floor(min(capital * 0.02, 5000) / (price * lot_size))` clamped
below at 1 lot.  (For `available_capital <= 0` the source returns 0 instead
— see the counterexample.) -/
theorem calculate_position_size_formula (sig : RSignal) (price lot capital : ℚ)
    (hp : sig.price = some price) (hl : sig.lot_size = some lot)
    (hc : 0 < capital) (hpl : 0 < price * lot) :
    calculate_position_size initRM sig capital =
      max 1 ⌊min (capital * 0.02) 5000 / (price * lot)⌋ := by
  have h1 : ¬ capital ≤ 0 := not_le.mpr hc
  have h2 : ¬ price * lot ≤ 0 := not_le.mpr hpl
  have hmin : (0:ℚ) ≤ min (capital * 0.02) 5000 := by
    refine le_min (by nlinarith) (by norm_num)
  have h3 : (0:ℚ) ≤ min (capital * 0.02) 5000 / (price * lot) :=
    div_nonneg hmin (le_of_lt hpl)
  show (if capital ≤ 0 then (0:ℤ) else _) = _
  rw [if_neg h1]
  simp only [hp, hl, Option.getD_some]
  rw [if_neg h2]
  show max 1 (intTrunc (min (capital * initRM.position_size_percent)
    initRM.max_loss_per_trade / (price * lot))) = _
  have hps : initRM.position_size_percent = 0.02 := rfl
  have hml : initRM.max_loss_per_trade = 5000 := rfl
  rw [hps, hml, intTrunc, if_neg (not_lt.mpr h3)]

/-- Witness for C8: the spec's end-to-end scenario 5 — capital 100000,
price 50, lot size 75 gives `floor(2000/3750) = 0`, clamped to 1 lot. -/
theorem calculate_position_size_formula_witness :
    calculate_position_size initRM sigS 100000 = 1 := by
  have h := calculate_position_size_formula sigS 50 75 100000 rfl rfl
    (by norm_num) (by norm_num)
  rw [h]
  norm_num

/-- C8 counterexample: at `available_capital = 0` the source returns 0 lots,
while the claim's formula (clamped below at a minimum of 1 lot, "for every
available_capital") demands 1. -/
theorem calculate_position_size_zero_capital :
    calculate_position_size initRM sigS 0 = 0 ∧
    max 1 ⌊min ((0:ℚ) * 0.02) 5000 / ((50:ℚ) * 75)⌋ = 1 := by
  refine ⟨by simp [calculate_position_size], by norm_num⟩

/-- Scoring a well-formed row never raises: the four `option[key]` reads
succeed and the rest of `scoreRow` is pure computation. -/
theorem scoreRow_ok_of_wf (w : Param → ℚ) (up : ℚ) (r : RawRow) (h : r.wf) :
    ∃ a, scoreRow w up r = Except.ok a := by
  obtain ⟨h1, h2, h3, h4⟩ := h
  obtain ⟨s, hs⟩ := Option.isSome_iff_exists.mp h1
  obtain ⟨t, ht⟩ := Option.isSome_iff_exists.mp h2
  obtain ⟨d, hd⟩ := Option.isSome_iff_exists.mp h3
  obtain ⟨l, hl⟩ := Option.isSome_iff_exists.mp h4
  have hok : exceptOk (scoreRow w up r) = true := by
    simp [scoreRow, reqField, hs, ht, hd, hl, bind, Except.bind, exceptOk]
  cases hc : scoreRow w up r with
  | error e => rw [hc] at hok; simp [exceptOk] at hok
  | ok a => exact ⟨a, rfl⟩

/-! ## C1: validate_trade is the conjunction of the seven checks, but only
a boolean reaches the caller -/

/-- C1 (amended): with risk management enabled, `validate_trade` returns
`True` exactly when all seven named checks pass, and the failed-check list
computed for the log contains exactly the names of the failing checks.  The
value returned to the caller, however, is only the boolean — see the
counterexample, which shows it cannot convey the failed-check set. -/
theorem validate_trade_iff_all_checks (st : RiskManager) (now : Now) (sig : RSignal)
    (hen : st.enabled = true) :
    (validate_trade st now sig = true ↔
      (validate_trading_time st now = true ∧ validate_position_limits st sig = true ∧
       validate_risk_limits st sig = true ∧ validate_liquidity st sig = true ∧
       validate_spread st sig = true ∧ validate_volatility sig = true ∧
       validate_daily_loss_limit st = true)) ∧
    (("time_check" ∈ failed_checks st now sig ↔ validate_trading_time st now = false) ∧
     ("position_limit_check" ∈ failed_checks st now sig ↔
       validate_position_limits st sig = false) ∧
     ("risk_limit_check" ∈ failed_checks st now sig ↔ validate_risk_limits st sig = false) ∧
     ("liquidity_check" ∈ failed_checks st now sig ↔ validate_liquidity st sig = false) ∧
     ("spread_check" ∈ failed_checks st now sig ↔ validate_spread st sig = false) ∧
     ("volatility_check" ∈ failed_checks st now sig ↔ validate_volatility sig = false) ∧
     ("daily_loss_check" ∈ failed_checks st now sig ↔
       validate_daily_loss_limit st = false)) := by
  have h := checksList_spec (validate_trading_time st now) (validate_position_limits st sig)
    (validate_risk_limits st sig) (validate_liquidity st sig) (validate_spread st sig)
    (validate_volatility sig) (validate_daily_loss_limit st)
  have hv : validate_trade st now sig = (validation_results st now sig).all (fun c => c.2) := by
    simp [validate_trade, hen]
  rw [hv]
  exact ⟨h.1, h.2⟩

/-- Witness for C1: a concrete in-window signal passing every check is
approved. -/
theorem validate_trade_iff_all_checks_witness :
    validate_trade initRM now0 sigOK = true :=
  ((validate_trade_iff_all_checks initRM now0 sigOK rfl).1).mpr
    ⟨by decide, by decide, by norm_num [validate_risk_limits, sigOK, initRM], by decide,
     by norm_num [validate_spread, sigOK, initRM], by norm_num [validate_volatility, sigOK],
     by decide⟩

/-- C1 counterexample: `sigA` fails only the liquidity check and `sigB` only
the volatility check, yet `validate_trade` hands the caller the identical
boolean `false` for both — the returned value is not a structured result
carrying the failed-check set. -/
theorem validate_trade_returns_only_boolean :
    validate_trade initRM now0 sigA = validate_trade initRM now0 sigB ∧
    failed_checks initRM now0 sigA ≠ failed_checks initRM now0 sigB := by
  have a1 : validate_trading_time initRM now0 = true := by decide
  have a2A : validate_position_limits initRM sigA = true := by decide
  have a2B : validate_position_limits initRM sigB = true := by decide
  have a3A : validate_risk_limits initRM sigA = true := by
    norm_num [validate_risk_limits, sigA, initRM]
  have a3B : validate_risk_limits initRM sigB = true := by
    norm_num [validate_risk_limits, sigB, initRM]
  have a4A : validate_liquidity initRM sigA = false := by decide
  have a4B : validate_liquidity initRM sigB = true := by decide
  have a5A : validate_spread initRM sigA = true := by
    norm_num [validate_spread, sigA, initRM]
  have a5B : validate_spread initRM sigB = true := by
    norm_num [validate_spread, sigB, initRM]
  have a6A : validate_volatility sigA = true := by norm_num [validate_volatility, sigA]
  have a6B : validate_volatility sigB = false := by norm_num [validate_volatility, sigB]
  have a7 : validate_daily_loss_limit initRM = true := by decide
  constructor
  · simp [validate_trade, validation_results, a1, a2A, a2B, a3A, a3B, a4A, a4B, a5A, a5B,
      a6A, a6B, a7]
  · simp [failed_checks, validation_results, a1, a2A, a2B, a3A, a3B, a4A, a4B, a5A, a5B,
      a6A, a6B, a7]

/-! ## C3: recording the same outcome twice double-counts -/

/-- C3 (code bug): against the spec's idempotence requirement,
`learn_from_outcome` appends a fresh learning record on every call.  Two
calls with the same `signal_id` and identical outcome data leave two
records, and the aggregate P&L over the learning log is **doubled**
(1000 after two calls vs 500 after one) — there is no dedup or
last-write-wins policy in the source. -/
theorem learn_from_outcome_double_counts :
    engC3a.learning_data.length = 1 ∧
    (engC3a.learning_data.map (fun r => r.pnl)).sum = 500 ∧
    engC3b.learning_data.length = 2 ∧
    (engC3b.learning_data.map (fun r => r.pnl)).sum = 1000 ∧
    ((engC3b.learning_data.map (fun r => r.pnl)).sum ≠
      (engC3a.learning_data.map (fun r => r.pnl)).sum) := by
  have h1 : engC3a.learning_data =
      [{ signal_id := "s1", parameters := scores0.toOpt, predicted_confidence := 86,
         actual_outcome := "profit", pnl := 500, timestamp := now0, symbol := "NIFTY",
         action := TAction.BUY }] := by
    simp [engC3a, learn_from_outcome, engC3, sig1]
  have h2 : engC3b.learning_data =
      [{ signal_id := "s1", parameters := scores0.toOpt, predicted_confidence := 86,
         actual_outcome := "profit", pnl := 500, timestamp := now0, symbol := "NIFTY",
         action := TAction.BUY },
       { signal_id := "s1", parameters := scores0.toOpt, predicted_confidence := 86,
         actual_outcome := "profit", pnl := 500, timestamp := now0, symbol := "NIFTY",
         action := TAction.BUY }] := by
    simp [engC3b, engC3a, learn_from_outcome, engC3, sig1]
  refine ⟨by rw [h1]; rfl, by rw [h1]; norm_num, by rw [h2]; rfl, by rw [h2]; norm_num,
    by rw [h1, h2]; norm_num⟩

/-! ## C6: a malformed row aborts the whole scan -/

/-- C6 (code bug): a chain `[row0, badRow, rowB]` whose middle row lacks the
required `delta` field makes the whole analysis raise `KeyError` — the good
rows `row0` and `rowB` are not scored and `generate_signals` propagates the
error instead of emitting their signals, while the same chain without the
bad row scores fine.  This contradicts the claim that a single bad row
aborts only that row's scoring. -/
theorem malformed_row_aborts_whole_scan :
    analyze_market_parameters eng0.parameter_weights [row0, badRow, rowB] 105 =
      Except.error "KeyError: delta" ∧
    generate_signals eng0 now0 fresh0 "NIFTY" [row0, badRow, rowB] 105 =
      Except.error "KeyError: delta" ∧
    exceptOk (analyze_market_parameters eng0.parameter_weights [row0, rowB] 105) = true := by
  have hbad : scoreRow eng0.parameter_weights 105 badRow =
      Except.error "KeyError: delta" := by
    simp [scoreRow, badRow, row0, reqField, bind, Except.bind]
  obtain ⟨a0, ha0⟩ := scoreRow_ok_of_wf eng0.parameter_weights 105 row0 (by decide)
  obtain ⟨aB, haB⟩ := scoreRow_ok_of_wf eng0.parameter_weights 105 rowB (by decide)
  refine ⟨?_, ?_, ?_⟩
  · simp [analyze_market_parameters, mapMExcept, ha0, haB, hbad, bind, Except.bind]
  · simp [generate_signals, analyze_market_parameters, mapMExcept, ha0, haB, hbad,
      bind, Except.bind, Except.map]
  · simp [analyze_market_parameters, mapMExcept, ha0, haB, bind, Except.bind, exceptOk]

/-! ## C5: outside trading hours the signal list is empty -/

/-- Fallible mapping succeeds when every element maps successfully. -/
theorem mapMExcept_ok {ε α β : Type} (f : α → Except ε β) (l : List α)
    (h : ∀ x ∈ l, ∃ y, f x = Except.ok y) : ∃ ys, mapMExcept f l = Except.ok ys := by
  induction l with
  | nil => exact ⟨[], rfl⟩
  | cons a t ih =>
    obtain ⟨y, hy⟩ := h a (List.mem_cons_self a t)
    obtain ⟨ys, hys⟩ := ih (fun x hx => h x (List.mem_cons_of_mem a hx))
    exact ⟨y :: ys, by simp [mapMExcept, hy, hys, bind, Except.bind]⟩

/-- C5 (confirmed): outside the trading-hours window (09:15-15:30 same-day
window, weekdays only — `is_trading_time`), `generate_signals` returns the
empty sequence for every symbol, well-formed option chain, underlying price
and engine state. -/
theorem generate_signals_outside_hours (eng : AISignalEngine) (now : Now)
    (fresh : OptType → ℚ → String) (symbol : String) (chain : List RawRow) (up : ℚ)
    (hwf : ∀ r ∈ chain, r.wf) (ht : is_trading_time now = false) :
    generate_signals eng now fresh symbol chain up = Except.ok [] := by
  by_cases hc : chain.isEmpty
  · simp [generate_signals, hc]
  · obtain ⟨ys, hys⟩ := mapMExcept_ok (scoreRow eng.parameter_weights up) chain
      (fun r hr => scoreRow_ok_of_wf eng.parameter_weights up r (hwf r hr))
    simp [generate_signals, hc, analyze_market_parameters, hys, bind, Except.bind,
      Except.map, ht]

/-- Witness for C5: a strongly scoring chain at 03:00 yields no signals. -/
theorem generate_signals_outside_hours_witness :
    generate_signals eng0 now3am fresh0 "NIFTY" [row0] 105 = Except.ok [] :=
  generate_signals_outside_hours eng0 now3am fresh0 "NIFTY" [row0] 105
    (by decide) (by decide)

/-! ## C4: every emitted signal clears the threshold and is never HOLD -/

/-- Membership is preserved by the descending insertion. -/
theorem mem_insertDesc (s x : Signal) (l : List Signal) :
    x ∈ insertDesc s l ↔ x = s ∨ x ∈ l := by
  induction l with
  | nil => simp [insertDesc]
  | cons t ts ih =>
    simp only [insertDesc]
    split_ifs
    · simp [List.mem_cons]
    · simp only [List.mem_cons, ih]
      tauto

/-- Membership is preserved by the sorting fold, for any accumulator. -/
theorem mem_sortDesc_fold (l acc : List Signal) (x : Signal) :
    x ∈ l.foldl (fun acc s => insertDesc s acc) acc ↔ x ∈ acc ∨ x ∈ l := by
  induction l generalizing acc with
  | nil => simp
  | cons a t ih =>
    simp only [List.foldl_cons, ih, mem_insertDesc, List.mem_cons]
    tauto

/-- Membership is preserved by the stable descending sort. -/
theorem mem_sortDesc (l : List Signal) (x : Signal) : x ∈ sortDesc l ↔ x ∈ l := by
  simp [sortDesc, mem_sortDesc_fold]

/-- C4 (confirmed): whenever `generate_signals` returns successfully, every
signal in the returned list has stored confidence (the aggregated confidence
times 100) at least `confidence_threshold * 100`, and its action is never
HOLD — for every engine state, time, chain, symbol and underlying price. -/
theorem generate_signals_threshold (eng : AISignalEngine) (now : Now)
    (fresh : OptType → ℚ → String) (symbol : String) (chain : List RawRow) (up : ℚ)
    (res : List Signal) (s : Signal)
    (hres : generate_signals eng now fresh symbol chain up = Except.ok res)
    (hs : s ∈ res) :
    eng.confidence_threshold * 100 ≤ s.confidence ∧ s.action ≠ TAction.HOLD := by
  rw [generate_signals] at hres
  by_cases hc : chain.isEmpty
  · rw [if_pos hc] at hres
    obtain rfl : ([] : List Signal) = res := by simpa using hres
    simp at hs
  · rw [if_neg hc] at hres
    cases ha : analyze_market_parameters eng.parameter_weights chain up with
    | error e => rw [ha] at hres; simp [Except.map] at hres
    | ok analysis =>
      rw [ha] at hres
      simp only [Except.map, Except.ok.injEq] at hres
      by_cases htt : is_trading_time now
      · rw [if_pos htt] at hres
        subst hres
        rw [mem_sortDesc] at hs
        obtain ⟨kd, hkd, hemit⟩ := List.mem_filterMap.mp hs
        simp only [emitOne] at hemit
        by_cases h1 : kd.2.confidence ≥ eng.confidence_threshold
        · rw [if_pos h1] at hemit
          by_cases h2 : determine_action kd.2.params kd.2.otype kd.2.confidence ≠
              TAction.HOLD
          · rw [if_pos h2] at hemit
            obtain rfl := Option.some.inj hemit
            refine ⟨?_, h2⟩
            have := mul_le_mul_of_nonneg_right h1 (by norm_num : (0:ℚ) ≤ 100)
            simpa using this
          · rw [if_neg h2] at hemit
            simp at hemit
        · rw [if_neg h1] at hemit
          simp at hemit
      · rw [if_neg htt] at hres
        subst hres
        simp at hs

/-- Scoring `row0` at underlying 105 yields the scores of `rowAnalysis0`
(confidence 0.68 — the oi term is dropped). -/
theorem scoreRow_row0_eval :
    scoreRow eng0.parameter_weights 105 row0 = Except.ok rowAnalysis0 := by
  norm_num [scoreRow, row0, reqField, bind, Except.bind, analyze_delta, analyze_oi_change,
    analyze_volume, analyze_momentum, analyze_iv, analyze_spread, analyze_liquidity,
    confidence_sum_eq, rowAnalysis0, scores0, eng0, abs_of_nonneg]

/-- Running `generate_signals` on the one-row chain `[row0]` during trading
hours emits exactly `sig0`, a BUY at stored confidence 68. -/
theorem generate_signals_row0_eval :
    generate_signals eng0 now0 fresh0 "NIFTY" [row0] 105 = Except.ok [sig0] := by
  have h2 : analyze_market_parameters eng0.parameter_weights [row0] 105 =
      Except.ok [((OptType.CE, (100:ℚ)), rowAnalysis0)] := by
    simp [analyze_market_parameters, mapMExcept, scoreRow_row0_eval, bind, Except.bind,
      dictInsert, rowAnalysis0]
  have h3 : is_trading_time now0 = true := by decide
  have hct : eng0.confidence_threshold = 0.6 := rfl
  norm_num [generate_signals, h2, h3, hct, Except.map, List.filterMap_cons,
    List.filterMap_nil, emitOne, determine_action, sortDesc, insertDesc, fresh0, sig0,
    rowAnalysis0, scores0]
  rfl

/-- Witness for C4: the concrete emitted signal `sig0` clears the default
threshold (68 >= 60) and is a BUY, not HOLD. -/
theorem generate_signals_threshold_witness :
    eng0.confidence_threshold * 100 ≤ sig0.confidence ∧ sig0.action ≠ TAction.HOLD :=
  generate_signals_threshold eng0 now0 fresh0 "NIFTY" [row0] 105 [sig0] sig0
    generate_signals_row0_eval (by simp)

/-! ## C2: the weight invariant after optimization -/

/-- Each per-parameter weight computed by the optimizer loop is non-negative
whenever the previous weight was. -/
theorem rawWeight_nonneg (w : Param → ℚ) (recs : List LearningRecord) (p : Param)
    (h : 0 ≤ w p) : 0 ≤ rawWeight w recs p := by
  rw [rawWeight]
  split_ifs
  · exact h
  · exact h
  · exact le_trans (by norm_num) (le_max_left (0.05:ℚ) _)

/-- With samples present, the first guard of the loop body is skipped. -/
theorem rawWeight_of_ne_nil (w : Param → ℚ) (recs : List LearningRecord) (p : Param)
    (h : paramData recs p ≠ []) :
    rawWeight w recs p =
      if (highPnl recs p).isEmpty then w p
      else max 0.05 (min 0.35
        ((highPnl recs p).sum / ((highPnl recs p).length : ℚ) / 1000 + 0.15)) := by
  rw [rawWeight, if_neg]
  simp [List.isEmpty_iff, h]

/-- When every parameter has at least one sample, every parameter's weight
is accumulated into `total_weight` (no `continue` is hit). -/
theorem totalWeight_eq_sum (w : Param → ℚ) (recs : List LearningRecord)
    (h : ∀ p, paramData recs p ≠ []) :
    totalWeight w recs =
      rawWeight w recs .delta + rawWeight w recs .oi_change + rawWeight w recs .volume +
      rawWeight w recs .momentum + rawWeight w recs .iv + rawWeight w recs .spread +
      rawWeight w recs .liquidity := by
  have hc : ∀ p, contribWeight w recs p = rawWeight w recs p := by
    intro p
    rw [contribWeight, if_neg]
    simp [List.isEmpty_iff, h p]
  rw [totalWeight, hc, hc, hc, hc, hc, hc, hc]

/-- When every parameter has samples and the incoming weights satisfy the
invariant, the accumulated `total_weight` is positive (so the renormalizing
division is well-defined and order-preserving). -/
theorem totalWeight_pos (w : Param → ℚ) (recs : List LearningRecord)
    (h0 : ∀ p, 0 ≤ w p) (h1 : sumW w = 1) (h2 : ∀ p, paramData recs p ≠ []) :
    0 < totalWeight w recs := by
  rw [totalWeight_eq_sum w recs h2]
  by_cases hex : ∃ p, (highPnl recs p).isEmpty = false
  · obtain ⟨p0, hp0⟩ := hex
    have hb : max (0.05:ℚ) (min 0.35
        ((highPnl recs p0).sum / ((highPnl recs p0).length : ℚ) / 1000 + 0.15)) ≥ 0.05 :=
      le_max_left _ _
    have hr0 : rawWeight w recs p0 ≥ 0.05 := by
      rw [rawWeight_of_ne_nil w recs p0 (h2 p0), hp0]
      simpa using hb
    have hn : ∀ p, 0 ≤ rawWeight w recs p := fun p => rawWeight_nonneg w recs p (h0 p)
    have n1 := hn Param.delta
    have n2 := hn Param.oi_change
    have n3 := hn Param.volume
    have n4 := hn Param.momentum
    have n5 := hn Param.iv
    have n6 := hn Param.spread
    have n7 := hn Param.liquidity
    cases p0 <;> linarith
  · push_neg at hex
    have hall : ∀ p, rawWeight w recs p = w p := by
      intro p
      have he : (highPnl recs p).isEmpty = true := by
        cases hq : (highPnl recs p).isEmpty
        · exact absurd hq (by simpa using hex p)
        · rfl
      rw [rawWeight_of_ne_nil w recs p (h2 p), if_pos he]
    rw [hall, hall, hall, hall, hall, hall, hall]
    have : sumW w =
        w .delta + w .oi_change + w .volume + w .momentum + w .iv + w .spread +
        w .liquidity := rfl
    rw [this] at h1
    linarith

/-- C2 (amended): after an optimizer update the seven weights are
non-negative, and they sum to exactly 1 provided every parameter has at
least one sample among the last 100 learning records considered (a
parameter may well have zero HIGH-SCORE samples: it keeps its prior weight
and is still renormalized correctly).  When some parameter has no samples
at all while another has some, the sum exceeds 1 — see the
counterexample. -/
theorem optimize_weights_invariant (w : Param → ℚ) (ld : List LearningRecord)
    (h0 : ∀ p, 0 ≤ w p) (h1 : sumW w = 1)
    (h2 : ∀ p, paramData (lastN 100 ld) p ≠ []) :
    (∀ p, 0 ≤ optimize_weights w ld p) ∧ sumW (optimize_weights w ld) = 1 := by
  by_cases hlen : ld.length < 50
  · simp only [optimize_weights, if_pos hlen]
    exact ⟨h0, h1⟩
  · have htot : 0 < totalWeight w (lastN 100 ld) := totalWeight_pos w _ h0 h1 h2
    have htne : ¬ totalWeight w (lastN 100 ld) = 0 := ne_of_gt htot
    simp only [optimize_weights, if_neg hlen, if_neg htne]
    constructor
    · intro p
      exact div_nonneg (rawWeight_nonneg w _ p (h0 p)) (le_of_lt htot)
    · have hsum := totalWeight_eq_sum w (lastN 100 ld) h2
      simp only [sumW]
      rw [div_add_div_same, div_add_div_same, div_add_div_same, div_add_div_same,
        div_add_div_same, div_add_div_same, ← hsum]
      exact div_self htne

/-- Witness for C2: 50 JSON-style learning records that carry an
`oi_change_score` key, so every one of the seven parameters (including
`oi_change`) has samples — the weights renormalize to non-negative values
summing to exactly 1. -/
theorem optimize_weights_invariant_witness :
    (∀ p, 0 ≤ optimize_weights w0 ldOi p) ∧ sumW (optimize_weights w0 ldOi) = 1 :=
  optimize_weights_invariant w0 ldOi
    (by intro p; cases p <;> norm_num [w0, eng0])
    (by norm_num [sumW, w0, eng0])
    (by
      intro p
      cases p <;>
        simp [paramData, lastN, ldOi, List.filterMap_replicate, oiChangeRec,
          OptScores.get])

/-- C2 counterexample: 50 records shaped exactly as the program's own
`learn_from_outcome` writes them (the claim's quantification over all
record distributions surely includes these).  The optimizer's
`'oi_change_score'` lookup finds no sample in any of them, so `oi_change`
hits the `continue`: its retained weight is excluded from `total_weight`
(six high-scoring parameters give 6 x 0.35 = 2.1) yet still divided, and
the renormalized weights sum to 23/21, missing 1.0 by far more than
1e-9. -/
theorem optimize_weights_sum_not_one :
    sumW (optimize_weights w0 ldFull) = 23/21 ∧
    (23:ℚ)/21 - 1 > 1/1000000000 := by
  have hlast : lastN 100 ldFull = ldFull := by
    simp [lastN, ldFull]
  have hpnl : fullRec.pnl = 1000 := rfl
  have hdata : ∀ (p : Param) (sc : ℚ), fullRec.parameters.get p = some sc →
      paramData ldFull p = List.replicate 50 (sc, (1000:ℚ)) := by
    intro p sc hp
    simp [paramData, ldFull, List.filterMap_replicate, hp, hpnl]
  have hoc : paramData ldFull Param.oi_change = [] := by
    simp [paramData, ldFull, List.filterMap_replicate,
      show fullRec.parameters.get Param.oi_change = none from rfl]
  have hd1 := hdata Param.delta 0.9 rfl
  have hd3 := hdata Param.volume 0.9 rfl
  have hd4 := hdata Param.momentum 0.8 rfl
  have hd5 := hdata Param.iv 0.7 rfl
  have hd6 := hdata Param.spread 0.9 rfl
  have hd7 := hdata Param.liquidity 0.8 rfl
  have hhigh : ∀ (p : Param) (sc : ℚ),
      paramData ldFull p = List.replicate 50 (sc, (1000:ℚ)) → sc > 0.6 →
      highPnl ldFull p = List.replicate 50 (1000:ℚ) := by
    intro p sc hp hsc
    rw [highPnl, hp, List.filter_replicate_of_pos (by simpa using hsc)]
    simp
  have hraw : ∀ (p : Param) (sc : ℚ),
      paramData ldFull p = List.replicate 50 (sc, (1000:ℚ)) → sc > 0.6 →
      rawWeight w0 ldFull p = 0.35 := by
    intro p sc hp hsc
    rw [rawWeight, hp, hhigh p sc hp hsc]
    norm_num [List.sum_replicate, nsmul_eq_mul]
  have r1 := hraw Param.delta 0.9 hd1 (by norm_num)
  have r3 := hraw Param.volume 0.9 hd3 (by norm_num)
  have r4 := hraw Param.momentum 0.8 hd4 (by norm_num)
  have r5 := hraw Param.iv 0.7 hd5 (by norm_num)
  have r6 := hraw Param.spread 0.9 hd6 (by norm_num)
  have r7 := hraw Param.liquidity 0.8 hd7 (by norm_num)
  have hro : rawWeight w0 ldFull Param.oi_change = w0 Param.oi_change := by
    rw [rawWeight, hoc]
    simp
  have hcc : ∀ (p : Param) (sc : ℚ),
      paramData ldFull p = List.replicate 50 (sc, (1000:ℚ)) →
      rawWeight w0 ldFull p = 0.35 → contribWeight w0 ldFull p = 0.35 := by
    intro p sc hp hr
    rw [contribWeight, hp]
    simpa using hr
  have hc1 := hcc Param.delta 0.9 hd1 r1
  have hc3 := hcc Param.volume 0.9 hd3 r3
  have hc4 := hcc Param.momentum 0.8 hd4 r4
  have hc5 := hcc Param.iv 0.7 hd5 r5
  have hc6 := hcc Param.spread 0.9 hd6 r6
  have hc7 := hcc Param.liquidity 0.8 hd7 r7
  have hcoc : contribWeight w0 ldFull Param.oi_change = 0 := by
    rw [contribWeight, hoc]
    simp
  have htotal : totalWeight w0 ldFull = 2.1 := by
    rw [totalWeight, hc1, hcoc, hc3, hc4, hc5, hc6, hc7]
    norm_num
  have hlen : ¬ ldFull.length < 50 := by simp [ldFull]
  constructor
  · simp only [optimize_weights, if_neg hlen, hlast, htotal]
    rw [if_neg (by norm_num : ¬ (2.1:ℚ) = 0)]
    simp only [sumW]
    rw [r1, hro, r3, r4, r5, r6, r7]
    norm_num [w0, eng0]
  · norm_num
